import Mathlib

/-!
Formal model of the weatherlink-python core: the table-driven 16-bit CRC
(models.py), the WindDirection / RainCollectorType / BarometricTrend data
model (models.py), the binary record codec for DailySummary and
download-format ArchiveIntervalRecord buffers (models.py), the serial
configuration protocol (serial.py), and the Poller background-polling
state machine (poller.py).  Byte buffers are modelled as `List Nat`
(each element a byte value), Python ints as `Int`/`Nat`, and exact
`decimal.Decimal` arithmetic as `ℚ`.  Python exceptions are modelled
with `Except`.
-/

set_option maxHeartbeats 2000000
set_option maxRecDepth 16384

/-! ## Checksum engine (models.py `WEATHERLINK_CRC_TABLE`, `calculate_weatherlink_crc`) -/

/-- The 256-entry CRC table from models.py lines 729-762. -/
def WEATHERLINK_CRC_TABLE : List Nat := [
  0x0, 0x1021, 0x2042, 0x3063, 0x4084, 0x50a5, 0x60c6, 0x70e7,
  0x8108, 0x9129, 0xa14a, 0xb16b, 0xc18c, 0xd1ad, 0xe1ce, 0xf1ef,
  0x1231, 0x210, 0x3273, 0x2252, 0x52b5, 0x4294, 0x72f7, 0x62d6,
  0x9339, 0x8318, 0xb37b, 0xa35a, 0xd3bd, 0xc39c, 0xf3ff, 0xe3de,
  0x2462, 0x3443, 0x420, 0x1401, 0x64e6, 0x74c7, 0x44a4, 0x5485,
  0xa56a, 0xb54b, 0x8528, 0x9509, 0xe5ee, 0xf5cf, 0xc5ac, 0xd58d,
  0x3653, 0x2672, 0x1611, 0x630, 0x76d7, 0x66f6, 0x5695, 0x46b4,
  0xb75b, 0xa77a, 0x9719, 0x8738, 0xf7df, 0xe7fe, 0xd79d, 0xc7bc,
  0x48c4, 0x58e5, 0x6886, 0x78a7, 0x840, 0x1861, 0x2802, 0x3823,
  0xc9cc, 0xd9ed, 0xe98e, 0xf9af, 0x8948, 0x9969, 0xa90a, 0xb92b,
  0x5af5, 0x4ad4, 0x7ab7, 0x6a96, 0x1a71, 0xa50, 0x3a33, 0x2a12,
  0xdbfd, 0xcbdc, 0xfbbf, 0xeb9e, 0x9b79, 0x8b58, 0xbb3b, 0xab1a,
  0x6ca6, 0x7c87, 0x4ce4, 0x5cc5, 0x2c22, 0x3c03, 0xc60, 0x1c41,
  0xedae, 0xfd8f, 0xcdec, 0xddcd, 0xad2a, 0xbd0b, 0x8d68, 0x9d49,
  0x7e97, 0x6eb6, 0x5ed5, 0x4ef4, 0x3e13, 0x2e32, 0x1e51, 0xe70,
  0xff9f, 0xefbe, 0xdfdd, 0xcffc, 0xbf1b, 0xaf3a, 0x9f59, 0x8f78,
  0x9188, 0x81a9, 0xb1ca, 0xa1eb, 0xd10c, 0xc12d, 0xf14e, 0xe16f,
  0x1080, 0xa1, 0x30c2, 0x20e3, 0x5004, 0x4025, 0x7046, 0x6067,
  0x83b9, 0x9398, 0xa3fb, 0xb3da, 0xc33d, 0xd31c, 0xe37f, 0xf35e,
  0x2b1, 0x1290, 0x22f3, 0x32d2, 0x4235, 0x5214, 0x6277, 0x7256,
  0xb5ea, 0xa5cb, 0x95a8, 0x8589, 0xf56e, 0xe54f, 0xd52c, 0xc50d,
  0x34e2, 0x24c3, 0x14a0, 0x481, 0x7466, 0x6447, 0x5424, 0x4405,
  0xa7db, 0xb7fa, 0x8799, 0x97b8, 0xe75f, 0xf77e, 0xc71d, 0xd73c,
  0x26d3, 0x36f2, 0x691, 0x16b0, 0x6657, 0x7676, 0x4615, 0x5634,
  0xd94c, 0xc96d, 0xf90e, 0xe92f, 0x99c8, 0x89e9, 0xb98a, 0xa9ab,
  0x5844, 0x4865, 0x7806, 0x6827, 0x18c0, 0x8e1, 0x3882, 0x28a3,
  0xcb7d, 0xdb5c, 0xeb3f, 0xfb1e, 0x8bf9, 0x9bd8, 0xabbb, 0xbb9a,
  0x4a75, 0x5a54, 0x6a37, 0x7a16, 0xaf1, 0x1ad0, 0x2ab3, 0x3a92,
  0xfd2e, 0xed0f, 0xdd6c, 0xcd4d, 0xbdaa, 0xad8b, 0x9de8, 0x8dc9,
  0x7c26, 0x6c07, 0x5c64, 0x4c45, 0x3ca2, 0x2c83, 0x1ce0, 0xcc1,
  0xef1f, 0xff3e, 0xcf5d, 0xdf7c, 0xaf9b, 0xbfba, 0x8fd9, 0x9ff8,
  0x6e17, 0x7e36, 0x4e55, 0x5e74, 0x2e93, 0x3eb2, 0xed1, 0x1ef0]

/-- One step of the CRC loop body of `calculate_weatherlink_crc` (models.py
line 771): `crc = WEATHERLINK_CRC_TABLE[((crc >> 8) & 0xFF) ^ byte] ^ ((crc << 8) & 0xFF00)`. -/
def crcStep (crc byte : Nat) : Nat :=
  WEATHERLINK_CRC_TABLE.getD (((crc >>> 8) &&& 0xFF) ^^^ byte) 0 ^^^ ((crc <<< 8) &&& 0xFF00)

/-- Models `calculate_weatherlink_crc` (models.py lines 765-772): fold the
per-byte step over the buffer starting from 0. -/
def calculate_weatherlink_crc (data_bytes : List Nat) : Nat :=
  data_bytes.foldl crcStep 0

/-- Models `struct.pack('>H', n)` (big-endian 16-bit), used by
`write_config_setting` for the CRC trailer (serial.py line 306).
Faithful for `n < 2 ^ 16`, which `calculate_weatherlink_crc` guarantees. -/
def pack_be16 (n : Nat) : List Nat := [(n >>> 8) &&& 0xFF, n &&& 0xFF]

/-! ## Serial acknowledgement protocol (serial.py) -/

/-- The ACK byte, `curses.ascii.ACK` (0x06). -/
def curses_ascii_ACK : Nat := 0x06

/-- The NAK byte, `curses.ascii.NAK` (0x15). -/
def curses_ascii_NAK : Nat := 0x15

/-- `NotAcknowledgedError.NAK_BYTE` (serial.py line 34). -/
def NAK_BYTE : Nat := 0x21

/-- The distinct failure kinds of the acknowledgement protocol, plus the
IndexError that `_read_data(1)[0]` raises when no byte is available. -/
inductive AckError
  | notAcknowledged
  | invalidAcknowledgement
  | readError
deriving DecidableEq

/-- Models `NotAcknowledgedError.raise_if_not_acknowledged` (serial.py lines
36-40): raise if the byte is NAK (0x15) or `!` (0x21). -/
def NotAcknowledgedError.raise_if_not_acknowledged (ack : Nat) : Except AckError Unit :=
  if ack = curses_ascii_NAK ∨ ack = NAK_BYTE then .error .notAcknowledged else .ok ()

/-- Models `InvalidAcknowledgementError.raise_if_not_acknowledged` (serial.py
lines 44-47): raise if the byte is not ACK (0x06). -/
def InvalidAcknowledgementError.raise_if_not_acknowledged (ack : Nat) : Except AckError Unit :=
  if ack ≠ curses_ascii_ACK then .error .invalidAcknowledgement else .ok ()

/-- Models `SerialCommunicator.confirm_ack` (serial.py lines 107-117) over the
incoming byte stream: take the single next byte and run both checks. -/
def confirm_ack : List Nat → Except AckError Unit
  | [] => .error .readError
  | ack :: _ => do
    NotAcknowledgedError.raise_if_not_acknowledged ack
    InvalidAcknowledgementError.raise_if_not_acknowledged ack

/-- Models `ConfigurationSettingMixin.read_config_setting` (serial.py lines
250-279) after the `EEBRD` instruction has been acknowledged: block-read
`setting_length + 2` bytes (payload plus CRC trailer) from the stream,
optionally validate the CRC, and return the setting with or without the
trailer (`setting[:-2]`). -/
def read_config_setting (stream : List Nat) (setting_length : Nat)
    (confirm_crc return_crc : Bool) : Except String (List Nat) :=
  let setting := stream.take (setting_length + 2)
  if confirm_crc && (calculate_weatherlink_crc setting != 0) then
    .error "CRCValidationError"
  else
    .ok (if return_crc then setting else setting.dropLast.dropLast)

/-- Models `ConfigurationSettingMixin.write_config_setting` (serial.py lines
281-318) after the `EEBWR` instruction: validate the declared length, compute
the big-endian CRC trailer, verify self-consistency, and return the bytes
that are transmitted. -/
def write_config_setting (setting_length : Nat) (setting_value : List Nat) :
    Except String (List Nat) :=
  if setting_value.length ≠ setting_length then
    .error "ValueError"
  else
    let crc := calculate_weatherlink_crc setting_value
    let data := setting_value ++ pack_be16 crc
    let verified_crc := calculate_weatherlink_crc data
    if verified_crc ≠ 0 then .error "CRCValidationError"
    else .ok data

/-! ## WindDirection (models.py lines 69-115) -/

/-- The 16-point compass enumeration `WindDirection`. -/
inductive WindDirection
  | N | NNE | NE | ENE | E | ESE | SE | SSE
  | S | SSW | SW | WSW | W | WNW | NW | NNW
deriving DecidableEq

/-- The enum value of each point (0 for N through 15 for NNW). -/
def WindDirection.index : WindDirection → Nat
  | .N => 0 | .NNE => 1 | .NE => 2 | .ENE => 3
  | .E => 4 | .ESE => 5 | .SE => 6 | .SSE => 7
  | .S => 8 | .SSW => 9 | .SW => 10 | .WSW => 11
  | .W => 12 | .WNW => 13 | .NW => 14 | .NNW => 15

/-- Inverse of `WindDirection.index` on 0..15 (the enum member with a given
value); arguments outside 0..15 are never passed by guarded callers. -/
def WindDirection.ofIndex : Nat → WindDirection
  | 0 => .N | 1 => .NNE | 2 => .NE | 3 => .ENE
  | 4 => .E | 5 => .ESE | 6 => .SE | 7 => .SSE
  | 8 => .S | 9 => .SSW | 10 => .SW | 11 => .WSW
  | 12 => .W | 13 => .WNW | 14 => .NW | _ => .NNW

/-- Models `WindDirection(value)` — the enum call raises ValueError for a
value that is not one of the members 0..15. -/
def WindDirection.ofValue (v : Int) : Except String WindDirection :=
  if 0 ≤ v ∧ v ≤ 15 then .ok (WindDirection.ofIndex v.toNat) else .error "ValueError"

/-- The `degrees` attribute set in `WindDirection.__init__` (models.py lines
88-91): `value * 22.5`, with 0.0 replaced by 360.0. -/
def WindDirection.degrees (p : WindDirection) : ℚ :=
  let d : ℚ := (p.index : ℚ) * 22.5
  if d = 0 then 360 else d

/-- The dictionary `_WindDirection__FROM_DEGREE_MAP` (models.py lines 98-115),
keyed on the integers 1..360, written as the contiguous runs that make up the
source's dictionary lines. -/
def fromDegreeMap (d : Int) : Option WindDirection :=
  if (350 ≤ d ∧ d ≤ 360) ∨ (1 ≤ d ∧ d ≤ 11) then some .N
  else if 12 ≤ d ∧ d ≤ 34 then some .NNE
  else if 35 ≤ d ∧ d ≤ 56 then some .NE
  else if 57 ≤ d ∧ d ≤ 79 then some .ENE
  else if 80 ≤ d ∧ d ≤ 101 then some .E
  else if 102 ≤ d ∧ d ≤ 124 then some .ESE
  else if 125 ≤ d ∧ d ≤ 146 then some .SE
  else if 147 ≤ d ∧ d ≤ 169 then some .SSE
  else if 170 ≤ d ∧ d ≤ 191 then some .S
  else if 192 ≤ d ∧ d ≤ 214 then some .SSW
  else if 215 ≤ d ∧ d ≤ 236 then some .SW
  else if 237 ≤ d ∧ d ≤ 259 then some .WSW
  else if 260 ≤ d ∧ d ≤ 281 then some .W
  else if 282 ≤ d ∧ d ≤ 304 then some .WNW
  else if 305 ≤ d ∧ d ≤ 326 then some .NW
  else if 327 ≤ d ∧ d ≤ 349 then some .NNW
  else none

/-- Result of `WindDirection.from_degrees`: a normal return (`None` or a
point), or the KeyError the dictionary lookup raises on a non-key. -/
inductive FromDegreesResult
  | ok (value : Option WindDirection)
  | keyError
deriving DecidableEq

/-- Models `WindDirection.from_degrees` (models.py lines 93-97): `None` for
degrees below 1 or above 360, otherwise a dictionary lookup whose keys are
the integers 1..360 — a degrees value that is not equal to an integer (or
not a key) raises KeyError.  Integrality is expressed as equality with the
floor. -/
def WindDirection.from_degrees (degrees : ℚ) : FromDegreesResult :=
  if degrees < 1 ∨ degrees > 360 then .ok none
  else if degrees = (⌊degrees⌋ : ℚ) then
    match fromDegreeMap ⌊degrees⌋ with
    | some p => .ok (some p)
    | none => .keyError
  else .keyError

/-- All 16 compass points. -/
def WindDirection.all : List WindDirection :=
  [.N, .NNE, .NE, .ENE, .E, .ESE, .SE, .SSE, .S, .SSW, .SW, .WSW, .W, .WNW, .NW, .NNW]

instance : Fintype WindDirection where
  elems := ⟨(WindDirection.all : List WindDirection), by decide⟩
  complete := fun x => by cases x <;> decide

/-! ## Specification-side nearest-point definitions for the reverse lookup.

The spec describes the reverse lookup as resolving an integer degree value
1..360 to the nearest of the 16 points.  To keep everything in `Int` we work
in quarter-degree units: point k sits at `90 * k` quarter-degrees (N at
1440), and nearness is circular distance modulo 1440 quarter-degrees. -/

/-- The canonical degree value of a point in quarter-degree units
(N = 360° = 1440, every other point `index * 22.5°` = `index * 90`). -/
def canonicalQuarterDegrees (p : WindDirection) : Int :=
  if p = .N then 1440 else 90 * (p.index : Int)

/-- Circular distance between two positions in quarter-degree units on the
1440-unit circle. -/
def circularDistance (a b : Int) : Int :=
  min |a - b| (1440 - |a - b|)

/-- Modelled from the spec: point `p` is (one of the) nearest of the 16
compass points to degree value `d`. -/
def IsNearest (d : Int) (p : WindDirection) : Prop :=
  ∀ q : WindDirection,
    circularDistance (4 * d) (canonicalQuarterDegrees p) ≤
      circularDistance (4 * d) (canonicalQuarterDegrees q)

instance (d : Int) (p : WindDirection) : Decidable (IsNearest d p) :=
  inferInstanceAs (Decidable (∀ q : WindDirection, _ ≤ _))

/-- Modelled from the spec: the point whose half-open 22.5° sector centered
on its canonical degree value contains `d` — sector k is
`[22.5k - 11.25, 22.5k + 11.25)`, i.e. `90k - 45 ≤ 4d < 90k + 45` in
quarter-degree units, wrapping modulo the circle. -/
def nearestPoint (d : Int) : WindDirection :=
  WindDirection.ofIndex ((((4 * d + 45) / 90) % 16).toNat)

/-- The point one sector counterclockwise (one enum index lower, wrapping). -/
def lowerNeighbor (p : WindDirection) : WindDirection :=
  WindDirection.ofIndex ((p.index + 15) % 16)

/-- The eight integer degree values lying just above a sector boundary of the
form `x.75` degrees, where the source dictionary extends the lower sector one
degree past the nearest-point boundary. -/
def exceptionalDegrees : List Int := [34, 79, 124, 169, 214, 259, 304, 349]

/-! ## Rain collector types (models.py lines 118-151) -/

/-- `decimal.Decimal('0.393701')` (models.py line 38), exact. -/
def INCHES_PER_CENTIMETER : ℚ := 0.393701

/-- `decimal.Decimal('0.1')` (models.py line 29), exact. -/
def TENTHS_CONST : ℚ := 0.1

/-- `decimal.Decimal('0.01')` (models.py line 32), exact. -/
def HUNDREDTHS_CONST : ℚ := 0.01

/-- `decimal.Decimal('0.001')` (models.py line 35), exact. -/
def THOUSANDTHS_CONST : ℚ := 0.001

/-- The scale function `TENTHS` (models.py line 30). -/
def TENTHS (x : ℚ) : ℚ := x * TENTHS_CONST

/-- The scale function `HUNDREDTHS` (models.py line 33). -/
def HUNDREDTHS (x : ℚ) : ℚ := x * HUNDREDTHS_CONST

/-- The scale function `THOUSANDTHS` (models.py line 36). -/
def THOUSANDTHS (x : ℚ) : ℚ := x * THOUSANDTHS_CONST

/-- The serial-encoding rain collector variants (models.py lines 122-126). -/
inductive RainCollectorTypeSerial
  | inches_0_01
  | millimeters_0_2
  | millimeters_0_1
deriving DecidableEq

/-- The serial encoding codes 0x00, 0x10, 0x20. -/
def RainCollectorTypeSerial.code : RainCollectorTypeSerial → Nat
  | .inches_0_01 => 0x00
  | .millimeters_0_2 => 0x10
  | .millimeters_0_1 => 0x20

/-- The `clicks_to_inches` lambdas attached to the serial variants
(models.py lines 127-131). -/
def RainCollectorTypeSerial.clicks_to_inches : RainCollectorTypeSerial → ℚ → ℚ
  | .inches_0_01 => fun c => c * HUNDREDTHS_CONST
  | .millimeters_0_2 => fun c => c * HUNDREDTHS_CONST * INCHES_PER_CENTIMETER * 2
  | .millimeters_0_1 => fun c => c * HUNDREDTHS_CONST * INCHES_PER_CENTIMETER

/-- The database-encoding rain collector variants (models.py lines 135-141). -/
inductive RainCollectorTypeDatabase
  | inches_0_1
  | inches_0_01
  | millimeters_0_2
  | millimeters_1_0
  | millimeters_0_1
deriving DecidableEq

/-- The database encoding codes 0x0000, 0x1000, 0x2000, 0x3000, 0x6000. -/
def RainCollectorTypeDatabase.code : RainCollectorTypeDatabase → Nat
  | .inches_0_1 => 0x0000
  | .inches_0_01 => 0x1000
  | .millimeters_0_2 => 0x2000
  | .millimeters_1_0 => 0x3000
  | .millimeters_0_1 => 0x6000

/-- The `clicks_to_inches` lambdas attached to the database variants
(models.py lines 142-150). -/
def RainCollectorTypeDatabase.clicks_to_inches : RainCollectorTypeDatabase → ℚ → ℚ
  | .inches_0_1 => fun c => TENTHS_CONST * c
  | .inches_0_01 => fun c => HUNDREDTHS_CONST * c
  | .millimeters_0_2 => fun c => HUNDREDTHS_CONST * INCHES_PER_CENTIMETER * c * 2
  | .millimeters_1_0 => fun c => TENTHS_CONST * INCHES_PER_CENTIMETER * c
  | .millimeters_0_1 => fun c => HUNDREDTHS_CONST * INCHES_PER_CENTIMETER * c

/-- The fixed per-variant conversion factor the spec attributes to each
serial variant (exact rationals). -/
def serialConversionFactor : RainCollectorTypeSerial → ℚ
  | .inches_0_01 => 0.01
  | .millimeters_0_2 => 0.00787402
  | .millimeters_0_1 => 0.00393701

/-- The fixed per-variant conversion factor the spec attributes to each
database variant (exact rationals). -/
def databaseConversionFactor : RainCollectorTypeDatabase → ℚ
  | .inches_0_1 => 0.1
  | .inches_0_01 => 0.01
  | .millimeters_0_2 => 0.00787402
  | .millimeters_1_0 => 0.0393701
  | .millimeters_0_1 => 0.00393701

/-! ## BarometricTrend and the LOOP2 trend pipeline (models.py lines 60-66,
611-613, 706-714) -/

/-- The five-valued `BarometricTrend` enumeration. -/
inductive BarometricTrend
  | falling_rapidly
  | falling_slowly
  | steady
  | rising_slowly
  | rising_rapidly
deriving DecidableEq

/-- The integer code of each trend. -/
def BarometricTrend.value : BarometricTrend → Int
  | .falling_rapidly => -60
  | .falling_slowly => -20
  | .steady => 0
  | .rising_slowly => 20
  | .rising_rapidly => 60

/-- Models `BarometricTrend(v)` — the enum call raises ValueError for a code
outside the five members. -/
def BarometricTrend.ofValue (v : Int) : Except String BarometricTrend :=
  if v = -60 then .ok .falling_rapidly
  else if v = -20 then .ok .falling_slowly
  else if v = 0 then .ok .steady
  else if v = 20 then .ok .rising_slowly
  else if v = 60 then .ok .rising_rapidly
  else .error "ValueError"

/-- The sentinel substitution performed by the LOOP2 attribute-map entry
`('barometric_trend', STRAIGHT_NUMBER, 80)` (models.py line 613): raw value
80 becomes `None`, everything else passes through. -/
def loop2BarometricTrendSentinel (raw : Int) : Option Int :=
  if raw = 80 then none else some raw

/-- Models `BarometricTrend(arguments['barometric_trend'])` where the
argument may be `None` (which also raises ValueError). -/
def pyBarometricTrendCall (argument : Option Int) : Except String BarometricTrend :=
  match argument with
  | some v => BarometricTrend.ofValue v
  | none => .error "ValueError"

/-- The try/except in `LoopRecord._post_process_arguments` (models.py lines
711-714): a ValueError from the enum call is caught and the field becomes
`None`. -/
def postProcessBarometricTrend (argument : Option Int) : Option BarometricTrend :=
  match pyBarometricTrendCall argument with
  | .ok t => some t
  | .error _ => none

/-- The full LOOP2 barometric-trend pipeline applied to the raw decoded byte:
sentinel substitution followed by the post-processing try/except. -/
def loop2_barometric_trend (raw : Int) : Option BarometricTrend :=
  postProcessBarometricTrend (loop2BarometricTrendSentinel raw)

/-! ## Binary record codec (models.py `struct.unpack_from` loops) -/

/-- Byte `i` of the buffer (`struct` format code `B`). -/
def u8 (buf : List Nat) (i : Nat) : Nat := buf.getD i 0

/-- Signed byte at offset `i` (`struct` format code `b`). -/
def s8 (buf : List Nat) (i : Nat) : Int :=
  let b := u8 buf i
  if b < 128 then (b : Int) else (b : Int) - 256

/-- Unsigned little-endian 16-bit field at offset `i` (`struct` code `H`). -/
def u16le (buf : List Nat) (i : Nat) : Nat := u8 buf i + 256 * u8 buf (i + 1)

/-- Signed little-endian 16-bit field at offset `i` (`struct` code `h`). -/
def s16le (buf : List Nat) (i : Nat) : Int :=
  let v := u16le buf i
  if v < 32768 then (v : Int) else (v : Int) - 65536

/-- A decoded field value: `STRAIGHT_NUMBER` keeps an integer,
`STRAIGHT_DECIMAL` and the scaling lambdas produce exact decimals (`ℚ`),
`WindDirection` produces a compass point, and a sentinel match produces
Python `None`. -/
inductive FieldValue
  | int (n : Int)
  | rat (q : ℚ)
  | dir (w : WindDirection)
  | null
deriving DecidableEq

/-- The scale functions that appear in the attribute maps. -/
inductive ScaleFn
  | straightNumber
  | straightDecimal
  | tenths
  | hundredths
  | thousandths
  | windDirectionScale
deriving DecidableEq

/-- Apply a scale function to a raw decoded integer.  Only the
`WindDirection` enum call can fail (ValueError on a value outside 0..15). -/
def applyScale : ScaleFn → Int → Except String FieldValue
  | .straightNumber, v => .ok (.int v)
  | .straightDecimal, v => .ok (.rat (v : ℚ))
  | .tenths, v => .ok (.rat (TENTHS (v : ℚ)))
  | .hundredths, v => .ok (.rat (HUNDREDTHS (v : ℚ)))
  | .thousandths, v => .ok (.rat (THOUSANDTHS (v : ℚ)))
  | .windDirectionScale, v =>
    match WindDirection.ofValue v with
    | .ok w => .ok (.dir w)
    | .error e => .error e

/-- One attribute-map row `(name, scale_fn, sentinel)`; a `none` sentinel is
Python `None`, which never compares equal to a raw integer. -/
abbrev FieldDescriptor := String × ScaleFn × Option Int

/-- The generic kwargs-building loop shared by the record loaders
(`for i, v in enumerate(arguments): ...`): slot indices in `skip`
(verification-map keys and special-handling indices) are left out; a raw
value equal to its sentinel becomes `None`; otherwise the scale function is
applied. -/
def decodeFields (attrMap : List FieldDescriptor) (skip : List Nat) :
    Nat → List Int → Except String (List (String × FieldValue))
  | _, [] => .ok []
  | i, v :: rest =>
    if i ∈ skip then
      decodeFields attrMap skip (i + 1) rest
    else
      let d := attrMap.getD i ("", .straightNumber, none)
      do
        let fv ← if some v = d.2.2 then pure FieldValue.null else applyScale d.2.1 v
        let tail ← decodeFields attrMap skip (i + 1) rest
        pure ((d.1, fv) :: tail)

/-- The verification-map pass (`for k, v in six.iteritems(...): assert
arguments[k] == v`): true iff every required slot holds its constant. -/
def verificationPassed (vmap : List (Nat × Int)) (args : List Int) : Bool :=
  vmap.all (fun kv => args.getD kv.1 0 == kv.2)

/-- Failure kinds of a record decode: a verification-map `assert` failure, or
a ValueError from a scale function. -/
inductive DecodeError
  | assertionError
  | valueError (msg : String)
deriving DecidableEq

/-! ## DailySummary (models.py lines 206-322) -/

/-- `DAILY_SUMMARY_VERIFICATION_MAP = {0: 2, 30: 3}` (models.py lines 251-254). -/
def DAILY_SUMMARY_VERIFICATION_MAP : List (Nat × Int) := [(0, 2), (30, 3)]

def DASH_LARGE : Int := 32767
def DASH_LARGE_NEGATIVE : Int := -32768
def DASH_ZERO : Int := 0
def DASH_SMALL : Int := 255

/-- `DAILY_SUMMARY_ATTRIBUTE_MAP` (models.py lines 255-298). -/
def DAILY_SUMMARY_ATTRIBUTE_MAP : List FieldDescriptor := [
  ("ds1_version", .straightNumber, none),
  ("minutes", .straightNumber, none),
  ("temperature_outside_high", .tenths, some DASH_LARGE_NEGATIVE),
  ("temperature_outside_low", .tenths, some DASH_LARGE),
  ("temperature_inside_high", .tenths, some DASH_LARGE_NEGATIVE),
  ("temperature_inside_low", .tenths, some DASH_LARGE),
  ("temperature_outside_average", .tenths, some DASH_LARGE),
  ("temperature_inside_average", .tenths, some DASH_LARGE),
  ("wind_chill_high", .tenths, some DASH_LARGE_NEGATIVE),
  ("wind_chill_low", .tenths, some DASH_LARGE),
  ("dew_point_high", .tenths, some DASH_LARGE_NEGATIVE),
  ("dew_point_low", .tenths, some DASH_LARGE),
  ("wind_chill_average", .tenths, some DASH_LARGE),
  ("dew_point_average", .tenths, some DASH_LARGE),
  ("humidity_outside_high", .tenths, some DASH_SMALL),
  ("humidity_outside_low", .tenths, some DASH_SMALL),
  ("humidity_inside_high", .tenths, some DASH_SMALL),
  ("humidity_inside_low", .tenths, some DASH_SMALL),
  ("humidity_outside_average", .tenths, some DASH_SMALL),
  ("barometric_pressure_high", .thousandths, some DASH_ZERO),
  ("barometric_pressure_low", .thousandths, some DASH_ZERO),
  ("barometric_pressure_average", .thousandths, some DASH_ZERO),
  ("wind_speed_high", .tenths, some DASH_ZERO),
  ("wind_speed_average", .tenths, some DASH_ZERO),
  ("wind_daily_run", .tenths, some DASH_ZERO),
  ("wind_speed_high_10_minute_average", .tenths, some DASH_LARGE_NEGATIVE),
  ("wind_speed_high_direction", .windDirectionScale, some DASH_SMALL),
  ("wind_speed_high_10_minute_average_direction", .windDirectionScale, some DASH_SMALL),
  ("rain_total", .thousandths, none),
  ("rain_rate_high", .hundredths, none),
  ("ds2_version", .straightNumber, none),
  ("total_wind_packets", .straightNumber, some DASH_LARGE_NEGATIVE),
  ("heat_index_high", .tenths, some DASH_LARGE_NEGATIVE),
  ("heat_index_low", .tenths, some DASH_LARGE),
  ("heat_index_average", .tenths, some DASH_LARGE),
  ("thw_index_high", .tenths, some DASH_LARGE_NEGATIVE),
  ("thw_index_low", .tenths, some DASH_LARGE),
  ("integrated_heating_degree_days", .tenths, some DASH_ZERO),
  ("temperature_wet_bulb_high", .tenths, some DASH_LARGE_NEGATIVE),
  ("temperature_wet_bulb_low", .tenths, some DASH_LARGE),
  ("temperature_wet_bulb_average", .tenths, some DASH_LARGE),
  ("integrated_cooling_degree_days", .tenths, some DASH_ZERO)]

/-- `struct.unpack_from(DAILY_SUMMARY_FORMAT, ...)` on a 176-byte buffer:
the 42 decoded slots at their byte offsets per the format string
(models.py lines 207-249); pad bytes (`x`) are skipped. -/
def dailySummaryUnpack (buf : List Nat) : List Int := [
  s8 buf 0, s16le buf 2, s16le buf 4, s16le buf 6, s16le buf 8,
  s16le buf 10, s16le buf 12, s16le buf 14, s16le buf 16, s16le buf 18,
  s16le buf 20, s16le buf 22, s16le buf 24, s16le buf 26, s16le buf 28,
  s16le buf 30, s16le buf 32, s16le buf 34, s16le buf 36, s16le buf 38,
  s16le buf 40, s16le buf 42, s16le buf 44, s16le buf 46, s16le buf 48,
  s16le buf 50, s8 buf 52, s8 buf 53, s16le buf 54, s16le buf 56,
  s8 buf 88, s16le buf 92, s16le buf 102, s16le buf 104, s16le buf 106,
  s16le buf 112, s16le buf 114, s16le buf 116, s16le buf 118, s16le buf 120,
  s16le buf 122, s16le buf 163]

/-- Models `DailySummary.load_from_wlk` (models.py lines 303-322): unpack the
42 slots, assert the verification map, then build the field mapping (the
`datetime.date` attachment is carried as the raw year/month/day triple). -/
def DailySummary.load_from_wlk (buf : List Nat) (year month day : Int) :
    Except DecodeError ((Int × Int × Int) × List (String × FieldValue)) :=
  let args := dailySummaryUnpack buf
  if verificationPassed DAILY_SUMMARY_VERIFICATION_MAP args then
    match decodeFields DAILY_SUMMARY_ATTRIBUTE_MAP [0, 30] 0 args with
    | .ok kwargs => .ok ((year, month, day), kwargs)
    | .error e => .error (.valueError e)
  else .error .assertionError

/-! ## Download-format ArchiveIntervalRecord (models.py lines 484-528) -/

/-- `RECORD_VERIFICATION_MAP_DOWNLOAD = {21: 0}` (models.py lines 381-383). -/
def RECORD_VERIFICATION_MAP_DOWNLOAD : List (Nat × Int) := [(21, 0)]

/-- `RECORD_SPECIAL_HANDLING_DOWNLOAD = {0, 1, 5, 6}` (models.py line 385). -/
def RECORD_SPECIAL_HANDLING_DOWNLOAD : List Nat := [0, 1, 5, 6]

/-- `RECORD_ATTRIBUTE_MAP_DOWNLOAD` (models.py lines 409-432). -/
def RECORD_ATTRIBUTE_MAP_DOWNLOAD : List FieldDescriptor := [
  ("__special", .straightNumber, none),
  ("__special", .straightNumber, none),
  ("temperature_outside", .tenths, some DASH_LARGE),
  ("temperature_outside_high", .tenths, some DASH_LARGE_NEGATIVE),
  ("temperature_outside_low", .tenths, some DASH_LARGE),
  ("__special", .straightNumber, none),
  ("__special", .straightNumber, none),
  ("barometric_pressure", .thousandths, some DASH_ZERO),
  ("solar_radiation", .straightNumber, some DASH_LARGE),
  ("number_of_wind_samples", .straightNumber, some DASH_ZERO),
  ("temperature_inside", .tenths, some DASH_LARGE),
  ("humidity_inside", .straightNumber, some DASH_SMALL),
  ("humidity_outside", .straightNumber, some DASH_SMALL),
  ("wind_speed", .straightDecimal, some DASH_SMALL),
  ("wind_speed_high", .straightDecimal, some DASH_ZERO),
  ("wind_direction_speed_high", .windDirectionScale, some DASH_SMALL),
  ("wind_direction_prevailing", .windDirectionScale, some DASH_SMALL),
  ("uv_index", .tenths, some DASH_SMALL),
  ("evapotranspiration", .thousandths, some DASH_ZERO),
  ("solar_radiation_high", .straightNumber, some DASH_LARGE),
  ("uv_index_high", .tenths, some DASH_SMALL),
  ("record_version", .straightNumber, none)]

/-- `struct.unpack_from(RECORD_FORMAT_DOWNLOAD, ...)` on a 52-byte buffer:
the 22 decoded slots at their byte offsets per the format string
(models.py lines 351-375). -/
def downloadUnpack (buf : List Nat) : List Int := [
  s16le buf 0, s16le buf 2, s16le buf 4, s16le buf 6, s16le buf 8,
  (u16le buf 10 : Int), (u16le buf 12 : Int), (u16le buf 14 : Int),
  s16le buf 16, (u16le buf 18 : Int), s16le buf 20,
  (u8 buf 22 : Int), (u8 buf 23 : Int), (u8 buf 24 : Int), (u8 buf 25 : Int),
  (u8 buf 26 : Int), (u8 buf 27 : Int), (u8 buf 28 : Int), (u8 buf 29 : Int),
  s16le buf 30, (u8 buf 32 : Int), (u8 buf 42 : Int)]

/-- Look a field up in the built record (RecordDict item access). -/
def lookupField (record : List (String × FieldValue)) (name : String) : FieldValue :=
  ((record.find? (fun kv => kv.1 == name)).map (fun kv => kv.2)).getD .null

/-- `RECORD_WIND_DIRECTION_SPECIAL` (models.py lines 434-437). -/
def RECORD_WIND_DIRECTION_SPECIAL : List (String × String) :=
  [("wind_direction_prevailing", "wind_direction_prevailing_degrees"),
   ("wind_direction_speed_high", "wind_direction_speed_high_degrees")]

/-- The wind-direction post-processing pass (models.py lines 519-523): a
truthy direction contributes its `degrees` attribute, a falsy value (`None`)
contributes `None`. -/
def windDegreeFields (record : List (String × FieldValue)) : List (String × FieldValue) :=
  RECORD_WIND_DIRECTION_SPECIAL.map (fun kk =>
    match lookupField record kk.1 with
    | .dir w => (kk.2, .rat w.degrees)
    | _ => (kk.2, FieldValue.null))

/-- Models `ArchiveIntervalRecord.load_from_download` (models.py lines
484-528).  `.ok none` is the skip/end-of-stream signal (`return None`) taken
when the leading date stamp is below 1; `.error .assertionError` is the
verification-map assert; otherwise the record's field mapping is built,
extended with the rain, wind-direction-degree and timestamp special fields
(the `datetime` conversion of the timestamp is not modelled). -/
def ArchiveIntervalRecord.load_from_download (buf : List Nat) (minutes_covered : Int) :
    Except DecodeError (Option (List (String × FieldValue))) :=
  let args := downloadUnpack buf
  if args.getD 0 0 < 1 then .ok none
  else if verificationPassed RECORD_VERIFICATION_MAP_DOWNLOAD args then
    match decodeFields RECORD_ATTRIBUTE_MAP_DOWNLOAD
        ([21] ++ RECORD_SPECIAL_HANDLING_DOWNLOAD) 0 args with
    | .error e => .error (.valueError e)
    | .ok kwargs =>
      let rain_clicks := args.getD 5 0
      let rain_rate_clicks := args.getD 6 0
      let record := kwargs ++
        [("minutes_covered", FieldValue.int minutes_covered),
         ("rain_amount_clicks", FieldValue.int rain_clicks),
         ("rain_rate_clicks", FieldValue.int rain_rate_clicks),
         ("rain_amount", FieldValue.rat
            (RainCollectorTypeSerial.inches_0_01.clicks_to_inches (rain_clicks : ℚ))),
         ("rain_rate", FieldValue.rat
            (RainCollectorTypeSerial.inches_0_01.clicks_to_inches (rain_rate_clicks : ℚ)))]
      let record := record ++ windDegreeFields record
      let timestamp := args.getD 0 0 * 65536 + args.getD 1 0
      .ok (some (record ++ [("timestamp", FieldValue.int timestamp)]))
  else .error .assertionError

/-! ## Poller background-polling state machine (poller.py) -/

/-- The mutable state of a `Poller` relevant to its lifecycle: whether
`_socket` is set, and `_stop_event` (`none` = no event object yet,
`some b` = a `threading.Event` whose internal flag is `b`). -/
structure PollerState where
  hasSocket : Bool
  stopEvent : Option Bool
deriving DecidableEq

/-- `Poller.__init__`: `_socket = None`, `_stop_event = None`. -/
def Poller.initial : PollerState := ⟨false, none⟩

/-- `Poller.connect` (poller.py lines 31-44); the transport is modelled as
always succeeding. -/
def Poller.connect (s : PollerState) : Except String PollerState :=
  if s.hasSocket then .error "ValueError" else .ok { s with hasSocket := true }

/-- `Poller.disconnect` (poller.py lines 46-53). -/
def Poller.disconnect (s : PollerState) : Except String PollerState :=
  if s.hasSocket then .ok { s with hasSocket := false } else .error "ValueError"

/-- `Poller.start_background_polling` (poller.py lines 71-80): an existing
`_stop_event` object (always truthy, set or not) is rejected; otherwise a
fresh unset `threading.Event` is stored and the poll instruction is sent
(transport modelled as succeeding). -/
def Poller.start_background_polling (s : PollerState) : Except String PollerState :=
  if s.stopEvent.isSome then .error "ValueError"
  else .ok { s with stopEvent := some false }

/-- `Poller.stop_background_polling` (poller.py lines 82-86): requires an
event object and sets its flag; the object itself is never removed. -/
def Poller.stop_background_polling (s : PollerState) : Except String PollerState :=
  match s.stopEvent with
  | none => .error "ValueError"
  | some _ => .ok { s with stopEvent := some true }

/-- `Poller._receive_loop_packets` (poller.py lines 95-117) reads
`_stop_event` but never assigns it; its effect on the modelled state is nil. -/
def Poller.receive_loop_packets (s : PollerState) : Except String PollerState :=
  .ok s

/-- `Poller.poll` (poller.py lines 66-69) sends and receives without touching
`_stop_event`. -/
def Poller.poll (s : PollerState) : Except String PollerState :=
  .ok s

/-- The public operations of a `Poller` instance. -/
inductive PollerOp
  | connect
  | disconnect
  | startBackground
  | stopBackground
  | poll
  | receiveLoop
deriving DecidableEq

/-- Dispatch one operation. -/
def Poller.applyOp (s : PollerState) : PollerOp → Except String PollerState
  | .connect => Poller.connect s
  | .disconnect => Poller.disconnect s
  | .startBackground => Poller.start_background_polling s
  | .stopBackground => Poller.stop_background_polling s
  | .poll => Poller.poll s
  | .receiveLoop => Poller.receive_loop_packets s

/-- Run one operation; a raised error leaves the instance state unchanged
(every raise in poller.py happens before any assignment). -/
def Poller.step (s : PollerState) (op : PollerOp) : PollerState :=
  match Poller.applyOp s op with
  | .ok t => t
  | .error _ => s

/-- Run a sequence of operations on the instance. -/
def Poller.run (s : PollerState) (ops : List PollerOp) : PollerState :=
  ops.foldl Poller.step s

instance {ε α : Type} [DecidableEq ε] [DecidableEq α] : DecidableEq (Except ε α)
  | .error a, .error b =>
    if h : a = b then .isTrue (by rw [h]) else .isFalse (fun hc => h (Except.error.inj hc))
  | .error _, .ok _ => .isFalse (fun hc => Except.noConfusion hc)
  | .ok _, .error _ => .isFalse (fun hc => Except.noConfusion hc)
  | .ok a, .ok b =>
    if h : a = b then .isTrue (by rw [h]) else .isFalse (fun hc => h (Except.ok.inj hc))

/-! ## Theorems -/

theorem mask_shift_right (c : Nat) :
    (((c <<< 8) &&& 0xFF00) >>> 8) &&& 0xFF = c &&& 0xFF := by
  apply Nat.eq_of_testBit_eq
  intro i
  have h255 : (0xFF : Nat) = 2 ^ 8 - 1 := by decide
  have hFF00 : (0xFF00 : Nat) = (2 ^ 8 - 1) <<< 8 := by decide
  rw [h255, hFF00]
  simp only [Nat.testBit_land, Nat.testBit_shiftRight, Nat.testBit_shiftLeft,
    Nat.testBit_two_pow_sub_one]
  have h1 : 8 + i - 8 = i := by omega
  have h2 : (decide (8 + i ≥ 8)) = true := by simp
  rw [h1, h2]
  by_cases h : i < 8
  · simp [h]
  · simp [h]

theorem mask_shift_left_zero (c : Nat) :
    (((c <<< 8) &&& 0xFF00) <<< 8) &&& 0xFF00 = 0 := by
  apply Nat.eq_of_testBit_eq
  intro i
  have hFF00 : (0xFF00 : Nat) = (2 ^ 8 - 1) <<< 8 := by decide
  rw [hFF00]
  simp only [Nat.testBit_land, Nat.testBit_shiftLeft, Nat.testBit_two_pow_sub_one,
    Nat.zero_testBit]
  by_cases h8 : 8 ≤ i
  · by_cases h16 : 16 ≤ i
    · have : ¬ (i - 8 < 8) := by omega
      simp [this]
    · have : ¬ (8 ≤ i - 8) := by omega
      simp [this]
  · simp [h8]

theorem crcStep_trailer (c : Nat) :
    crcStep (crcStep c ((c >>> 8) &&& 0xFF)) (c &&& 0xFF) = 0 := by
  have htab : WEATHERLINK_CRC_TABLE.getD 0 0 = 0 := rfl
  have h1 : crcStep c ((c >>> 8) &&& 0xFF) = (c <<< 8) &&& 0xFF00 := by
    unfold crcStep
    rw [Nat.xor_self, htab, Nat.zero_xor]
  rw [h1]
  unfold crcStep
  rw [mask_shift_right, Nat.xor_self, htab, Nat.zero_xor, mask_shift_left_zero]

/-- C1: appending the big-endian two-byte encoding of `checksum(B)` to any
byte sequence `B` yields a buffer whose checksum is 0, and consequently the
defensive self-consistency check in `write_config_setting` holds for every
setting value: the write succeeds and transmits exactly the value followed
by its big-endian CRC trailer. -/
theorem crc_trailer_self_check (B : List Nat) (h : ∀ b ∈ B, b < 256) :
    calculate_weatherlink_crc (B ++ pack_be16 (calculate_weatherlink_crc B)) = 0 ∧
    write_config_setting B.length B =
      .ok (B ++ pack_be16 (calculate_weatherlink_crc B)) := by
  have key : calculate_weatherlink_crc (B ++ pack_be16 (calculate_weatherlink_crc B)) = 0 := by
    unfold calculate_weatherlink_crc pack_be16
    rw [List.foldl_append]
    exact crcStep_trailer _
  refine ⟨key, ?_⟩
  unfold write_config_setting
  simp [key]

theorem crc_trailer_self_check_witness :
    (∀ b ∈ [0xAB, 0x05, 0xCD], b < 256) ∧
    calculate_weatherlink_crc
      ([0xAB, 0x05, 0xCD] ++ pack_be16 (calculate_weatherlink_crc [0xAB, 0x05, 0xCD])) = 0 ∧
    write_config_setting 3 [0xAB, 0x05, 0xCD] =
      .ok ([0xAB, 0x05, 0xCD] ++ pack_be16 (calculate_weatherlink_crc [0xAB, 0x05, 0xCD])) :=
  ⟨by decide, (crc_trailer_self_check [0xAB, 0x05, 0xCD] (by decide)).1,
    (crc_trailer_self_check [0xAB, 0x05, 0xCD] (by decide)).2⟩

/-- C4: confirming an instruction acknowledgement consumes exactly the single
next byte `b` of the stream and classifies it: 0x06 succeeds, 0x15 and 0x21
raise the not-acknowledged error, and every other value raises the distinct
invalid-acknowledgement (protocol violation) error. -/
theorem confirm_ack_classification (b : Nat) (rest : List Nat) :
    confirm_ack (b :: rest) =
      (if b = 0x15 ∨ b = 0x21 then .error AckError.notAcknowledged
       else if b ≠ 0x06 then .error AckError.invalidAcknowledgement
       else .ok ()) := by
  by_cases h1 : b = 0x15 ∨ b = 0x21 <;> by_cases h2 : b = 0x06 <;>
    simp [confirm_ack, NotAcknowledgedError.raise_if_not_acknowledged,
      InvalidAcknowledgementError.raise_if_not_acknowledged,
      curses_ascii_NAK, curses_ascii_ACK, NAK_BYTE, h1, h2, Bind.bind, Except.bind]

/-- C5: with CRC confirmation enabled, a response whose checksum over the
whole `len+2`-byte setting is non-zero raises the checksum-validation error
and the payload is not returned; a zero checksum returns the setting, with
the two trailer bytes stripped unless the caller requested them included
(and, when the stream delivers at least `len+2` bytes, the stripped result
is exactly the `len`-byte payload). -/
theorem read_config_setting_crc_gate (stream : List Nat) (n : Nat) (rc : Bool) :
    (calculate_weatherlink_crc (stream.take (n + 2)) ≠ 0 →
       read_config_setting stream n true rc = .error "CRCValidationError") ∧
    (calculate_weatherlink_crc (stream.take (n + 2)) = 0 →
       read_config_setting stream n true false =
         .ok ((stream.take (n + 2)).dropLast.dropLast) ∧
       read_config_setting stream n true true = .ok (stream.take (n + 2))) ∧
    (n + 2 ≤ stream.length →
       (stream.take (n + 2)).dropLast.dropLast = stream.take n) := by
  refine ⟨?_, ?_, ?_⟩
  · intro h
    simp [read_config_setting, h]
  · intro h
    constructor <;> simp [read_config_setting, h]
  · intro h
    have h1 : (stream.take (n + 2)).dropLast = stream.take (n + 1) := by
      rw [List.dropLast_eq_take, List.length_take, List.take_take]
      congr 1
      omega
    rw [h1, List.dropLast_eq_take, List.length_take, List.take_take]
    congr 1
    omega

theorem read_config_setting_crc_gate_witness :
    (calculate_weatherlink_crc ([1, 0, 0, 0].take (2 + 2)) ≠ 0 ∧
       read_config_setting [1, 0, 0, 0] 2 true false = .error "CRCValidationError") ∧
    (calculate_weatherlink_crc ([0, 0, 0, 0].take (2 + 2)) = 0 ∧
       read_config_setting [0, 0, 0, 0] 2 true false = .ok [0, 0] ∧
       read_config_setting [0, 0, 0, 0] 2 true true = .ok [0, 0, 0, 0]) ∧
    (2 + 2 ≤ [5, 6, 7, 8].length ∧
       ([5, 6, 7, 8].take (2 + 2)).dropLast.dropLast = [5, 6, 7, 8].take 2) :=
  ⟨⟨by decide, (read_config_setting_crc_gate [1, 0, 0, 0] 2 false).1 (by decide)⟩,
   ⟨by decide, ((read_config_setting_crc_gate [0, 0, 0, 0] 2 false).2.1 (by decide)).1,
     ((read_config_setting_crc_gate [0, 0, 0, 0] 2 true).2.1 (by decide)).2⟩,
   ⟨by decide, (read_config_setting_crc_gate [5, 6, 7, 8] 2 false).2.2 (by decide)⟩⟩

/-- C8: for every serial-encoding and every database-encoding rain collector
variant, `clicks_to_inches 0 = 0` and `clicks_to_inches` is exactly the
variant's fixed rational conversion factor times the click count. -/
theorem rain_collector_linear :
    (∀ (v : RainCollectorTypeSerial) (c : ℚ),
       v.clicks_to_inches 0 = 0 ∧
       v.clicks_to_inches c = serialConversionFactor v * c) ∧
    (∀ (v : RainCollectorTypeDatabase) (c : ℚ),
       v.clicks_to_inches 0 = 0 ∧
       v.clicks_to_inches c = databaseConversionFactor v * c) := by
  constructor <;> intro v c <;> cases v <;> refine ⟨?_, ?_⟩ <;>
    simp only [RainCollectorTypeSerial.clicks_to_inches,
      RainCollectorTypeDatabase.clicks_to_inches,
      serialConversionFactor, databaseConversionFactor,
      HUNDREDTHS_CONST, TENTHS_CONST, INCHES_PER_CENTIMETER] <;>
    ring_nf

/-- C9: the LOOP2 barometric-trend pipeline never fails: the five valid codes
decode to their trend, the sentinel 80 and every other invalid code decode to
an absent (`none`) trend. -/
theorem loop2_barometric_trend_total (raw : Int) :
    loop2_barometric_trend raw =
      (if raw = -60 then some BarometricTrend.falling_rapidly
       else if raw = -20 then some BarometricTrend.falling_slowly
       else if raw = 0 then some BarometricTrend.steady
       else if raw = 20 then some BarometricTrend.rising_slowly
       else if raw = 60 then some BarometricTrend.rising_rapidly
       else none) := by
  unfold loop2_barometric_trend postProcessBarometricTrend pyBarometricTrendCall
    loop2BarometricTrendSentinel BarometricTrend.ofValue
  by_cases h80 : raw = 80
  · simp [h80]
  · simp only [h80, if_false]
    split_ifs <;> rfl

theorem from_degrees_intCast (d : Int) :
    WindDirection.from_degrees (d : ℚ) =
      (if d < 1 ∨ d > 360 then .ok none
       else match fromDegreeMap d with
         | some p => .ok (some p)
         | none => .keyError) := by
  unfold WindDirection.from_degrees
  by_cases h : d < 1 ∨ d > 360
  · have hq : (d : ℚ) < 1 ∨ (d : ℚ) > 360 := by exact_mod_cast h
    rw [if_pos hq, if_pos h]
  · have hq : ¬ ((d : ℚ) < 1 ∨ (d : ℚ) > 360) := by
      intro hc
      exact h (by exact_mod_cast hc)
    rw [if_neg hq, if_neg h, Int.floor_intCast, if_pos rfl]

theorem windKey : ∀ n : Nat, n < 361 → 1 ≤ n →
    IsNearest (n : Int) (nearestPoint (n : Int)) ∧
    fromDegreeMap (n : Int) =
      some (if (n : Int) ∈ exceptionalDegrees then lowerNeighbor (nearestPoint (n : Int))
            else nearestPoint (n : Int)) := by decide

/-- C2 counterexample: the claim says `from_degrees` resolves an in-range
integer degree value to the nearest of the 16 points, but at degree 34 the
source dictionary returns NNE while the unique nearest point is NE
(|34 - 22.5| = 11.5 > |34 - 45| = 11). -/
theorem wind_from_degrees_not_nearest_at_34 :
    WindDirection.from_degrees ((34 : Int) : ℚ) = .ok (some WindDirection.NNE) ∧
    ¬ IsNearest 34 WindDirection.NNE ∧
    IsNearest 34 WindDirection.NE := by
  refine ⟨?_, by decide, by decide⟩
  rw [from_degrees_intCast]
  decide

/-- C2 (amended): for integer degrees outside [1, 360] (including 0)
`from_degrees` returns absent; inside [1, 360] it returns the point whose
half-open 22.5°-wide sector centered on its canonical degree value contains
the degree — except at the eight values 34, 79, 124, 169, 214, 259, 304 and
349 (the integers just above a sector boundary of the form x.75°), where it
returns the point one sector counterclockwise of the nearest point instead. -/
theorem wind_from_degrees_sector_map (d : Int) :
    ((d < 1 ∨ d > 360) → WindDirection.from_degrees (d : ℚ) = .ok none) ∧
    (1 ≤ d → d ≤ 360 → d ∉ exceptionalDegrees →
       WindDirection.from_degrees (d : ℚ) = .ok (some (nearestPoint d)) ∧
       IsNearest d (nearestPoint d)) ∧
    (1 ≤ d → d ≤ 360 → d ∈ exceptionalDegrees →
       WindDirection.from_degrees (d : ℚ) = .ok (some (lowerNeighbor (nearestPoint d))) ∧
       IsNearest d (nearestPoint d)) := by
  refine ⟨?_, ?_, ?_⟩
  · intro h
    rw [from_degrees_intCast, if_pos h]
  · intro h1 h2 h3
    have hd : ((d.toNat : Nat) : Int) = d := Int.toNat_of_nonneg (by omega)
    have hk := windKey d.toNat (by omega) (by omega)
    rw [hd] at hk
    obtain ⟨hnear, hmap⟩ := hk
    rw [if_neg h3] at hmap
    refine ⟨?_, hnear⟩
    rw [from_degrees_intCast, if_neg (by omega), hmap]
  · intro h1 h2 h3
    have hd : ((d.toNat : Nat) : Int) = d := Int.toNat_of_nonneg (by omega)
    have hk := windKey d.toNat (by omega) (by omega)
    rw [hd] at hk
    obtain ⟨hnear, hmap⟩ := hk
    rw [if_pos h3] at hmap
    refine ⟨?_, hnear⟩
    rw [from_degrees_intCast, if_neg (by omega), hmap]

theorem wind_from_degrees_sector_map_witness :
    (((0 : Int) < 1 ∨ (0 : Int) > 360) ∧
       WindDirection.from_degrees ((0 : Int) : ℚ) = .ok none) ∧
    ((1 : Int) ≤ 45 ∧ (45 : Int) ≤ 360 ∧ (45 : Int) ∉ exceptionalDegrees ∧
       WindDirection.from_degrees ((45 : Int) : ℚ) = .ok (some (nearestPoint 45))) ∧
    ((1 : Int) ≤ 34 ∧ (34 : Int) ≤ 360 ∧ (34 : Int) ∈ exceptionalDegrees ∧
       WindDirection.from_degrees ((34 : Int) : ℚ) =
         .ok (some (lowerNeighbor (nearestPoint 34)))) :=
  ⟨⟨by decide, (wind_from_degrees_sector_map 0).1 (by decide)⟩,
   ⟨by decide, by decide, by decide,
     ((wind_from_degrees_sector_map 45).2.1 (by decide) (by decide) (by decide)).1⟩,
   ⟨by decide, by decide, by decide,
     ((wind_from_degrees_sector_map 34).2.2 (by decide) (by decide) (by decide)).1⟩⟩

/-- C3 counterexample: the round trip through the canonical degree value
fails for NNE — its degree value 22.5 is not one of the dictionary's integer
keys, so the lookup raises KeyError instead of returning NNE. -/
theorem wind_round_trip_fails_for_NNE :
    WindDirection.from_degrees (WindDirection.degrees WindDirection.NNE) = .keyError ∧
    WindDirection.from_degrees (WindDirection.degrees WindDirection.NNE) ≠
      FromDegreesResult.ok (some WindDirection.NNE) := by
  have h : WindDirection.from_degrees (WindDirection.degrees WindDirection.NNE) = .keyError := by
    norm_num [WindDirection.degrees, WindDirection.index, WindDirection.from_degrees]
  refine ⟨h, ?_⟩
  rw [h]
  intro hc
  exact FromDegreesResult.noConfusion hc

/-- C3 (amended): the round trip `from_degrees (degrees p)` returns `p`
exactly for the eight points whose canonical degree value is an integer
(even enum value: N, NE, E, SE, S, SW, W, NW); for the other eight points
the canonical value is an odd multiple of 22.5° and the dictionary lookup
raises KeyError. -/
theorem wind_round_trip_parity (p : WindDirection) :
    WindDirection.from_degrees (WindDirection.degrees p) =
      (if p.index % 2 = 0 then .ok (some p) else .keyError) := by
  cases p <;>
    norm_num [WindDirection.degrees, WindDirection.index, WindDirection.from_degrees,
      fromDegreeMap]

/-- C6: decoding a 52-byte download-format record whose leading little-endian
16-bit date-stamp field is below 1 yields the defined skip/end-of-stream
signal (`return None`), not a decoded record and not a hard decode error. -/
theorem load_from_download_skip_signal (buf : List Nat) (minutes_covered : Int)
    (hlen : buf.length = 52) (hbytes : ∀ b ∈ buf, b < 256)
    (hstamp : s16le buf 0 < 1) :
    ArchiveIntervalRecord.load_from_download buf minutes_covered = .ok none := by
  have h0 : (downloadUnpack buf).getD 0 0 < 1 := by
    have he : (downloadUnpack buf).getD 0 0 = s16le buf 0 := rfl
    rw [he]
    exact hstamp
  simp only [ArchiveIntervalRecord.load_from_download]
  rw [if_pos h0]

theorem load_from_download_skip_signal_witness :
    (List.replicate 52 0).length = 52 ∧
    (∀ b ∈ List.replicate 52 0, b < 256) ∧
    s16le (List.replicate 52 0) 0 < 1 ∧
    ArchiveIntervalRecord.load_from_download (List.replicate 52 0) 30 = .ok none :=
  ⟨by decide, by decide, by decide,
    load_from_download_skip_signal (List.replicate 52 0) 30 (by decide) (by decide) (by decide)⟩

/-- C7: decoding a 176-byte DailySummary buffer aborts with the
format-validation (assertion) error whenever decoded slot 0 differs from 2 or
decoded slot 30 (the signed byte at offset 88) differs from 3 — it never
produces a record from such a buffer — and when both constants hold the
verification step passes (the decode does not raise the assertion error). -/
theorem daily_summary_verification_gate (buf : List Nat) (year month day : Int)
    (hlen : buf.length = 176) (hbytes : ∀ b ∈ buf, b < 256) :
    ((s8 buf 0 ≠ 2 ∨ s8 buf 88 ≠ 3) →
       DailySummary.load_from_wlk buf year month day = .error .assertionError) ∧
    (s8 buf 0 = 2 ∧ s8 buf 88 = 3 →
       DailySummary.load_from_wlk buf year month day ≠ .error .assertionError) := by
  have hform : verificationPassed DAILY_SUMMARY_VERIFICATION_MAP (dailySummaryUnpack buf) =
      ((s8 buf 0 == 2) && ((s8 buf 88 == 3) && true)) := rfl
  constructor
  · intro h
    have hv : verificationPassed DAILY_SUMMARY_VERIFICATION_MAP (dailySummaryUnpack buf) =
        false := by
      rw [hform]
      rcases h with h | h <;> simp [h]
    simp only [DailySummary.load_from_wlk, hv, Bool.false_eq_true, if_false]
  · intro h
    have hv : verificationPassed DAILY_SUMMARY_VERIFICATION_MAP (dailySummaryUnpack buf) =
        true := by
      rw [hform]
      simp [h.1, h.2]
    simp only [DailySummary.load_from_wlk, hv, if_true]
    cases hdec : decodeFields DAILY_SUMMARY_ATTRIBUTE_MAP [0, 30] 0 (dailySummaryUnpack buf) with
    | ok kwargs => simp
    | error e => simp

theorem daily_summary_verification_gate_witness :
    ((s8 (List.replicate 176 0) 0 ≠ 2 ∨ s8 (List.replicate 176 0) 88 ≠ 3) ∧
       DailySummary.load_from_wlk (List.replicate 176 0) 2016 6 7 =
         .error .assertionError) ∧
    ((s8 ((2 :: List.replicate 87 0) ++ (3 :: List.replicate 87 0)) 0 = 2 ∧
        s8 ((2 :: List.replicate 87 0) ++ (3 :: List.replicate 87 0)) 88 = 3) ∧
       DailySummary.load_from_wlk ((2 :: List.replicate 87 0) ++ (3 :: List.replicate 87 0))
         2016 6 7 ≠ .error .assertionError) :=
  ⟨⟨by decide,
     (daily_summary_verification_gate (List.replicate 176 0) 2016 6 7
       (by decide) (by decide)).1 (by decide)⟩,
   ⟨by decide,
     (daily_summary_verification_gate ((2 :: List.replicate 87 0) ++ (3 :: List.replicate 87 0))
       2016 6 7 (by decide) (by decide)).2 (by decide)⟩⟩

theorem poller_stopEvent_preserved (s : PollerState) (op : PollerOp)
    (h : s.stopEvent.isSome = true) : (Poller.step s op).stopEvent.isSome = true := by
  obtain ⟨sock, ev⟩ := s
  cases ev with
  | none => simp at h
  | some b =>
    cases op <;> cases sock <;>
      simp [Poller.step, Poller.applyOp, Poller.connect, Poller.disconnect,
        Poller.start_background_polling, Poller.stop_background_polling,
        Poller.receive_loop_packets, Poller.poll]

theorem poller_stopEvent_run (s : PollerState) (ops : List PollerOp)
    (h : s.stopEvent.isSome = true) : (Poller.run s ops).stopEvent.isSome = true := by
  induction ops generalizing s with
  | nil => exact h
  | cons op rest ih => exact ih (Poller.step s op) (poller_stopEvent_preserved s op h)

/-- C10: a successful `start_background_polling` leaves the background-session
flag (`_stop_event`) set, no subsequent sequence of operations — including
`stop_background_polling` — ever clears it, and therefore every later call to
`start_background_polling` on that instance raises the ValueError guard. -/
theorem poller_background_flag_permanent (s t : PollerState) (ops : List PollerOp)
    (h : Poller.start_background_polling s = .ok t) :
    (Poller.run t ops).stopEvent.isSome = true ∧
    Poller.start_background_polling (Poller.run t ops) = .error "ValueError" := by
  have ht : t.stopEvent.isSome = true := by
    unfold Poller.start_background_polling at h
    by_cases hs : s.stopEvent.isSome = true
    · rw [if_pos hs] at h
      exact Except.noConfusion h
    · rw [if_neg hs] at h
      have h2 := Except.ok.inj h
      rw [← h2]
      rfl
  have hrun := poller_stopEvent_run t ops ht
  refine ⟨hrun, ?_⟩
  unfold Poller.start_background_polling
  rw [if_pos hrun]

theorem poller_background_flag_permanent_witness :
    Poller.start_background_polling Poller.initial =
      .ok { hasSocket := false, stopEvent := some false } ∧
    (Poller.run { hasSocket := false, stopEvent := some false }
        [PollerOp.stopBackground]).stopEvent.isSome = true ∧
    Poller.start_background_polling
        (Poller.run { hasSocket := false, stopEvent := some false }
          [PollerOp.stopBackground]) = .error "ValueError" :=
  ⟨rfl,
   (poller_background_flag_permanent Poller.initial
     { hasSocket := false, stopEvent := some false } [PollerOp.stopBackground] rfl).1,
   (poller_background_flag_permanent Poller.initial
     { hasSocket := false, stopEvent := some false } [PollerOp.stopBackground] rfl).2⟩
